import Mathlib

/-!
# Verification of the TAWebsocket connection/protocol layer

A shallow embedding of `src/src/lib/TAWebsocket.ts`.  The generated protobuf
models (`Packets`, `Models`), the configuration record (`Config`) and the
session-state store (`Client`, the spec's "StateStore") live outside `src/`
and are treated as external collaborators: their shapes and the store's
`init`/`reset` semantics are modelled from the spec and so marked.  All
behaviour of the `TAWebsocket` class itself is translated directly from the
source.  Side effects (StateStore calls, timer scheduling, transmissions,
socket closes, logging) are made explicit as an `Action` trace in program
order.
-/

namespace TA

/-- Modelled from the spec: the declared role ("client type") of a
participant; `Models.User.ClientTypes` is generated protobuf code outside
`src/`. -/
inductive User.ClientTypes where
  | Player
  | Coordinator
  | WebsocketConnection
deriving DecidableEq, Repr

/-- Modelled from the spec: a participant identity (`Models.User`) — unique
id (guid), display name, declared role. -/
structure User where
  name : String
  guid : String
  client_type : User.ClientTypes
deriving DecidableEq, Repr

/-- Modelled from the spec: `Models.Characteristic`. -/
structure Characteristic where
  serialized_name : String
  difficulties : List Int
deriving DecidableEq, Repr

/-- Modelled from the spec: `Models.PreviewBeatmapLevel`, the selected
beatmap of a match. -/
structure PreviewBeatmapLevel where
  level_id : String
  name : String
  characteristics : List Characteristic
  loaded : Bool
deriving DecidableEq, Repr

/-- Modelled from the spec: `Models.Match` — id, associated participant ids,
leader id, selected level/characteristic/difficulty, scheduled start time. -/
structure Match where
  guid : String
  associated_users : List String
  leader : String
  selected_level : Option PreviewBeatmapLevel := none
  selected_characteristic : Option Characteristic := none
  selected_difficulty : Int := 0
  start_time : String := ""
deriving DecidableEq, Repr

/-- Modelled from the spec: the server-state payload mirrored by the
StateStore; only the known-users collection is read by this layer. -/
structure StateData where
  users : List User
deriving DecidableEq, Repr

/-- Modelled from the spec: `Packets.Response.Connect` — the handshake
response payload, carrying this client's assigned id and the server state. -/
structure Response.Connect where
  self_guid : String
  state : StateData
deriving DecidableEq, Repr

/-- Modelled from the spec: `Packets.Response.ResponseType`. -/
inductive Response.ResponseType where
  | Fail
  | Success
deriving DecidableEq, Repr

/-- Modelled from the spec: `Packets.Response` — an overall status plus the
(optional) Connect response payload read by this layer. -/
structure Response where
  type : Response.ResponseType
  connect : Option Response.Connect
deriving DecidableEq, Repr

/-- Modelled from the spec: `Packets.Request.Connect` — Self, a fixed client
version, an optional password. -/
structure Request.Connect where
  user : User
  client_version : Nat
  password : Option String
deriving DecidableEq, Repr

/-- Modelled from the spec: `Packets.Request`. -/
structure Request where
  connect : Option Request.Connect
deriving DecidableEq, Repr

/-- Modelled from the spec: `Packets.Event.MatchCreatedEvent`. -/
structure Event.MatchCreatedEvent where
  «match» : Match
deriving DecidableEq, Repr

/-- Modelled from the spec: `Packets.Event.MatchUpdatedEvent`. -/
structure Event.MatchUpdatedEvent where
  «match» : Match
deriving DecidableEq, Repr

/-- Modelled from the spec: `Packets.Event.MatchDeletedEvent`. -/
structure Event.MatchDeletedEvent where
  «match» : Match
deriving DecidableEq, Repr

/-- Modelled from the spec: `Packets.Event.UserLeftEvent`. -/
structure Event.UserLeftEvent where
  user : User
deriving DecidableEq, Repr

/-- Modelled from the spec: `Packets.Event` — at most one variant populated
(only the variants this layer constructs are modelled). -/
structure Event where
  match_created_event : Option Event.MatchCreatedEvent := none
  match_updated_event : Option Event.MatchUpdatedEvent := none
  match_deleted_event : Option Event.MatchDeletedEvent := none
  user_left_event : Option Event.UserLeftEvent := none
deriving DecidableEq, Repr

/-- Modelled from the spec: `Packets.Command.LoadSong`. -/
structure Command.LoadSong where
  level_id : String
deriving DecidableEq, Repr

/-- Modelled from the spec: `Packets.Command` — only the variants this layer
constructs are modelled. -/
structure Command where
  load_song : Option Command.LoadSong := none
  return_to_menu : Bool := false
deriving DecidableEq, Repr

mutual

/-- Modelled from the spec: the wire envelope `Packets.Packet` — a
correlation id, a sender id (`from`), and at most one of
request/response/event/command/forwarding-packet populated. -/
inductive Packet where
  | mk (id : String) («from» : String) (request : Option Request)
      (response : Option Response) (event : Option Event)
      (command : Option Command)
      (forwarding_packet : Option ForwardingPacket) : Packet

/-- Modelled from the spec: `Packets.ForwardingPacket` — the recipient id
list plus the wrapped inner packet. -/
inductive ForwardingPacket where
  | mk (forward_to : List String) (packet : Packet) : ForwardingPacket

end

def Packet.id : Packet → String
  | .mk i _ _ _ _ _ _ => i

def Packet.«from» : Packet → String
  | .mk _ f _ _ _ _ _ => f

def Packet.request : Packet → Option Request
  | .mk _ _ rq _ _ _ _ => rq

def Packet.response : Packet → Option Response
  | .mk _ _ _ rs _ _ _ => rs

def Packet.event : Packet → Option Event
  | .mk _ _ _ _ e _ _ => e

def Packet.command : Packet → Option Command
  | .mk _ _ _ _ _ c _ => c

def Packet.forwarding_packet : Packet → Option ForwardingPacket
  | .mk _ _ _ _ _ _ fp => fp

/-- The assignment `packet.from = ...` performed by `sendPacket`. -/
def Packet.setFrom : Packet → String → Packet
  | .mk i _ rq rs e c fp, g => .mk i g rq rs e c fp

def ForwardingPacket.forward_to : ForwardingPacket → List String
  | .mk ids _ => ids

def ForwardingPacket.packet : ForwardingPacket → Packet
  | .mk _ p => p

/-- `new Packets.Packet({ event })`: all other protobuf fields default. -/
def Packet.ofEvent (e : Event) : Packet :=
  .mk "" "" none none (some e) none none

/-- `new Packets.Packet({ command })`. -/
def Packet.ofCommand (c : Command) : Packet :=
  .mk "" "" none none none (some c) none

/-- `new Packets.Packet({ forwarding_packet })`. -/
def Packet.ofForwarding (fp : ForwardingPacket) : Packet :=
  .mk "" "" none none none none (some fp)

/-- `new Packets.Packet({ id, from, request })` as built by `ClientConnect`. -/
def Packet.ofRequest (i : String) (f : String) (r : Request) : Packet :=
  .mk i f (some r) none none none none

/-- Configuration record: the fields produced by `TAWebsocket.loadConfig`
(`src/src/lib/TAWebsocket.ts` lines 43-55).  The `sendToSocket` override is a
transport concern with no protocol effect and is not modelled. -/
structure Config where
  autoReconnect : Bool
  autoReconnectInterval : Nat
  autoReconnectMaxRetries : Int
  logging : Bool
  handshakeTimeout : Nat
  autoInit : Bool
  connectionMode : User.ClientTypes
deriving DecidableEq, Repr

/-- The constant defaults of `loadConfig` (caller overrides are overlaid on
these). -/
def defaultConfig : Config where
  autoReconnect := true
  autoReconnectInterval := 10000
  autoReconnectMaxRetries := -1
  logging := false
  handshakeTimeout := 0
  autoInit := true
  connectionMode := User.ClientTypes.WebsocketConnection

/-- Modelled from the spec: the external StateStore (`Client` from
`./client`, outside `src/`) — Self's identity, the handshake "connected"
flag (true only after handshake success), and the mirrored server state
(absent before the first successful handshake). -/
structure Client where
  Self : User
  isConnected : Bool
  State : Option StateData
deriving DecidableEq, Repr

/-- Modelled from the spec: `Client.init(connectResponse)` — overwrites the
mirror wholesale with the handshake payload and marks the connection
established. -/
def Client.init (c : Client) (cr : Response.Connect) : Client :=
  { c with isConnected := true, State := some cr.state }

/-- Modelled from the spec: `Client.reset()` — on disconnect the mirrored
session state is reset to empty and `connected` is forced false. -/
def Client.reset (c : Client) : Client :=
  { c with isConnected := false, State := none }

/-- Modelled from the spec: the transport handle's `readyState`. -/
inductive ReadyState where
  | CONNECTING
  | OPEN
  | CLOSING
  | CLOSED
deriving DecidableEq, Repr

/-- Modelled from the spec: an inbound transport message — a binary frame
(an `ArrayBuffer` of bytes) or a non-binary (text) message. -/
inductive WSMessage where
  | binary (data : List Nat)
  | text (data : String)

/-- The observable effects of the connection layer, recorded in program
order: StateStore calls, timer scheduling, transmissions, socket closes and
log lines. -/
inductive Action where
  | storeInit (payload : Response.Connect)
  | storeHandlePacket (p : Packet)
  | storeReset
  | scheduleReconnect (delayMs : Nat)
  | sendRaw (p : Packet)
  | wsClose
  | logError
  | logWarn

/-- Recognizes the scheduling of a reconnect timer (the `setTimeout` that
will call `init` again). -/
def Action.isScheduleReconnect : Action → Bool
  | .scheduleReconnect _ => true
  | _ => false

/-- The `TAWebsocket` object's fields relevant to the claims: the resolved
configuration, the transport handle (modelled by its readyState, `none` when
the field is null), the `taClient` StateStore, and the reconnect-attempt
counter (initialised to -1 in the class body, line 19). -/
structure TAWebsocket where
  config : Config
  ws : Option ReadyState
  taClient : Client
  reconnectAttempts : Int
deriving Repr

/-- `TAWebsocket.sendPacket` (lines 123-126): stamps the envelope's sender
field (`packet.from = this.taClient.Self?.guid`) and transmits the
serialized packet via `sendToSocket`.  The transmission is recorded as a
`sendRaw` action carrying the stamped packet. -/
def sendPacket (t : TAWebsocket) (p : Packet) : List Action :=
  [Action.sendRaw (p.setFrom t.taClient.Self.guid)]

/-- `TAWebsocket.sendEvent` (lines 128-130): wraps a bare event in a packet
and sends it. -/
def sendEvent (t : TAWebsocket) (e : Event) : List Action :=
  sendPacket t (Packet.ofEvent e)

/-- `TAWebsocket.forwardPacket` (lines 132-139): wraps the inner packet in a
`ForwardingPacket` naming the recipient ids and sends the wrapper. -/
def forwardPacket (t : TAWebsocket) (ids : List String) (packet : Packet) : List Action :=
  sendPacket t (Packet.ofForwarding (ForwardingPacket.mk ids packet))

/-- `TAWebsocket.ClientConnect` (lines 99-111): builds the Connect request
carrying Self, client version 66 and the optional password.  The fresh
correlation id produced by `uuidv4()` is passed in explicitly. -/
def ClientConnect (t : TAWebsocket) (uuid : String) (password : Option String) : List Action :=
  sendPacket t (Packet.ofRequest uuid t.taClient.Self.guid
    { connect := some { user := t.taClient.Self, client_version := 66, password := password } })

/-- `TAWebsocket.handlePacket` (lines 113-121): a Connect response with
overall status Success, while not already connected and carrying a non-empty
(truthy) `self_guid`, initializes the StateStore; afterwards the packet is
unconditionally handed to the StateStore's generic `handlePacket`.  The
store's generic handling is external: its effect on the mirror is the
parameter `applyStore`, and the call itself is recorded as a
`storeHandlePacket` action. -/
def handlePacket (applyStore : Client → Packet → Client) (t : TAWebsocket)
    (packet : Packet) : TAWebsocket × List Action :=
  let (c1, acts1) :=
    match packet.response with
    | some resp =>
      match resp.connect with
      | some connectResponse =>
        if resp.type = Response.ResponseType.Success
            ∧ t.taClient.isConnected = false ∧ connectResponse.self_guid ≠ "" then
          (t.taClient.init connectResponse, [Action.storeInit connectResponse])
        else
          (t.taClient, [])
      | none => (t.taClient, [])
    | none => (t.taClient, [])
  ({ t with taClient := applyStore c1 packet }, acts1 ++ [Action.storeHandlePacket packet])

/-- The `onclose` handler installed by `init` (lines 84-93): resets the
StateStore, then — if `autoReconnect` is enabled and `reconnectAttempts <
autoReconnectMaxRetries` — schedules `init` after `autoReconnectInterval`
and increments the attempt counter unless it still holds the -1 sentinel.
The optional `console.error` log line has no protocol effect and is
omitted. -/
def onclose (t : TAWebsocket) : TAWebsocket × List Action :=
  let c := t.taClient.reset
  if t.config.autoReconnect = true
      ∧ t.reconnectAttempts < t.config.autoReconnectMaxRetries then
    let attempts :=
      if t.reconnectAttempts ≠ -1 then t.reconnectAttempts + 1 else t.reconnectAttempts
    ({ t with taClient := c, reconnectAttempts := attempts },
      [Action.storeReset, Action.scheduleReconnect t.config.autoReconnectInterval])
  else
    ({ t with taClient := c }, [Action.storeReset])

/-- The `onmessage` handler installed by `init` (lines 72-83): binary frames
are decoded by the external Codec (`Packets.Packet.deserializeBinary`,
passed in as `decode`; `none` models a thrown decode error, which the
handler catches and logs); non-binary messages are at most logged.  The
final Bool records whether the handler closed the socket — it never does. -/
def onmessage (decode : List Nat → Option Packet) (applyStore : Client → Packet → Client)
    (t : TAWebsocket) (msg : WSMessage) : TAWebsocket × List Action × Bool :=
  match msg with
  | .binary data =>
    match decode data with
    | some packet =>
      let (t1, acts) := handlePacket applyStore t packet
      (t1, acts, false)
    | none => (t, [Action.logError], false)
  | .text _ =>
    (t, (if t.config.logging = true then [Action.logWarn] else []), false)

/-- `TAWebsocket.close` (lines 256-265): if the transport handle exists and
its `readyState` is OPEN, emits a `UserLeftEvent` carrying Self and then
closes the socket; otherwise it does nothing. -/
def close (t : TAWebsocket) : List Action :=
  if t.ws = some ReadyState.OPEN then
    sendEvent t { user_left_event := some { user := t.taClient.Self } } ++ [Action.wsClose]
  else
    []

/-- A caller-initiated `close()` together with the transport-close event it
triggers: when `close()` actually closed the socket, the `onclose` handler
subsequently runs (on the now-closed transport). -/
def closeThenOnclose (t : TAWebsocket) : TAWebsocket × List Action :=
  let acts := close t
  if t.ws = some ReadyState.OPEN then
    let (t1, acts1) := onclose { t with ws := some ReadyState.CLOSED }
    (t1, acts ++ acts1)
  else
    (t, acts)

/-- `TAWebsocket.createMatch` (lines 143-153): builds a new match whose
associated users are the given players' guids followed by Self's guid and
whose leader is Self, emits a MatchCreatedEvent, and returns the new match's
guid.  The fresh `uuidv4()` id is passed in explicitly; the id is returned
alongside only the outbound event — nothing inbound is consulted. -/
def createMatch (t : TAWebsocket) (uuid : String) (players : List User) : String × List Action :=
  let m : Match :=
    { guid := uuid,
      associated_users := players.map (fun x => x.guid) ++ [t.taClient.Self.guid],
      leader := t.taClient.Self.guid }
  (m.guid, sendEvent t { match_created_event := some { «match» := m } })

/-- `TAWebsocket.updateMatch` (lines 155-159). -/
def updateMatch (t : TAWebsocket) (m : Match) : List Action :=
  sendEvent t { match_updated_event := some { «match» := m } }

/-- `TAWebsocket.closeMatch` (lines 161-165). -/
def closeMatch (t : TAWebsocket) (m : Match) : List Action :=
  sendEvent t { match_deleted_event := some { «match» := m } }

/-- `TAWebsocket.getPlayers` (lines 267-269): the StateStore's known users
associated to the match whose role is Player; empty when the store has no
state yet. -/
def getPlayers (t : TAWebsocket) (m : Match) : List User :=
  match t.taClient.State with
  | some s =>
    s.users.filter (fun x =>
      m.associated_users.contains x.guid && x.client_type == User.ClientTypes.Player)
  | none => []

/-- `TAWebsocket.getCoordinators` (lines 271-273). -/
def getCoordinators (t : TAWebsocket) (m : Match) : List User :=
  match t.taClient.State with
  | some s =>
    s.users.filter (fun x =>
      m.associated_users.contains x.guid && x.client_type == User.ClientTypes.Coordinator)
  | none => []

/-- `TAWebsocket.getWebsockets` (lines 275-277). -/
def getWebsockets (t : TAWebsocket) (m : Match) : List User :=
  match t.taClient.State with
  | some s =>
    s.users.filter (fun x =>
      m.associated_users.contains x.guid && x.client_type == User.ClientTypes.WebsocketConnection)
  | none => []

/-- `TAWebsocket.returnToMenu` (lines 248-254). -/
def returnToMenu (t : TAWebsocket) (ids : List String) : List Action :=
  forwardPacket t ids (Packet.ofCommand { return_to_menu := true })

/-- `TAWebsocket.loadSong` (lines 171-205): mutates the given match's
selected level/characteristic/difficulty (the level id is `"custom_level_"`
followed by the hash), forwards a LoadSong command to the guids of the
match's current Player-role participants, and schedules (500 ms later) a
MatchUpdated broadcast carrying the mutated match.  Returns the mutated
match, the immediate actions and the delayed `(delayMs, action)` list. -/
def loadSong (t : TAWebsocket) (songName : String) (hash : String) (difficulty : Int)
    (taMatch : Match) : Match × List Action × List (Nat × Action) :=
  let matchMap : PreviewBeatmapLevel :=
    { level_id := "custom_level_" ++ hash,
      name := songName,
      characteristics := [{ serialized_name := "Standard", difficulties := [difficulty] }],
      loaded := true }
  let m1 : Match :=
    { taMatch with
      selected_level := some matchMap,
      selected_characteristic :=
        some { serialized_name := "Standard", difficulties := [difficulty] },
      selected_difficulty := difficulty }
  let playerIds := (getPlayers t m1).map (fun x => x.guid)
  let acts := forwardPacket t playerIds
    (Packet.ofCommand { load_song := some { level_id := matchMap.level_id } })
  (m1, acts, (updateMatch t m1).map (fun a => (500, a)))

/-! ## Concrete fixtures -/

/-- A configuration with the given `autoReconnectMaxRetries`, everything else
at the `loadConfig` defaults. -/
def cfgRetries (n : Int) : Config :=
  { defaultConfig with autoReconnectMaxRetries := n }

/-- A concrete Self identity, as built in the constructor. -/
def user0 : User :=
  { name := "tester", guid := "self-guid", client_type := User.ClientTypes.WebsocketConnection }

/-- The StateStore as freshly constructed: not yet connected, no state. -/
def client0 : Client :=
  { Self := user0, isConnected := false, State := none }

/-- A `TAWebsocket` as freshly constructed with the given configuration:
`reconnectAttempts = -1` (line 19), store not connected. -/
def mkTA (cfg : Config) : TAWebsocket :=
  { config := cfg, ws := none, taClient := client0, reconnectAttempts := -1 }

/-- Iterated transport closes: `closeIter cfg n` is the state after `n`
close events starting from a fresh client, paired with the actions of the
`n`-th close (`[]` for `n = 0`). -/
def closeIter (cfg : Config) : Nat → TAWebsocket × List Action
  | 0 => (mkTA cfg, [])
  | n + 1 => onclose (closeIter cfg n).1

/-- A connected client whose transport is OPEN, configured with
`autoReconnectMaxRetries = 0`. -/
def tOpen0 : TAWebsocket :=
  { config := cfgRetries 0, ws := some ReadyState.OPEN,
    taClient := { Self := user0, isConnected := true, State := some { users := [] } },
    reconnectAttempts := -1 }

/-- A client whose transport is OPEN but whose handshake has not completed
(`isConnected = false`). -/
def t4open : TAWebsocket :=
  { config := defaultConfig, ws := some ReadyState.OPEN, taClient := client0,
    reconnectAttempts := -1 }

/-- A client with no live transport handle. -/
def tClosed : TAWebsocket :=
  { config := defaultConfig, ws := none, taClient := client0, reconnectAttempts := -1 }

/-- A client configured with `autoReconnect = false`. -/
def tNoReconnect : TAWebsocket :=
  { config := { defaultConfig with autoReconnect := false }, ws := none,
    taClient := client0, reconnectAttempts := -1 }

/-! ## Helper lemmas -/

/-- Across any sequence of close events the configuration is unchanged and
the reconnect-attempt counter never leaves its initial -1: the increment on
line 91 is guarded by `reconnectAttempts !== -1`, which the initial value
falsifies forever. -/
lemma closeIter_invariant (cfg : Config) (n : Nat) :
    ((closeIter cfg n).1).config = cfg ∧ ((closeIter cfg n).1).reconnectAttempts = -1 := by
  induction n with
  | zero => exact ⟨rfl, rfl⟩
  | succ n ih =>
    obtain ⟨hcfg, hatt⟩ := ih
    simp only [closeIter, onclose]
    split
    · simp [hcfg, hatt]
    · exact ⟨hcfg, hatt⟩

/-! ## Claims -/

/-- **C1.** The claim: with autoReconnect on and `autoReconnectMaxRetries =
N ≥ 0`, after N+1 total transport closes no further reconnect timer is
scheduled; with autoReconnect off, none ever is.  The second half holds, but
the first is false in the code: since `reconnectAttempts` stays -1 forever
(see `closeIter_invariant`), `-1 < N` always holds and **every** close —
the (n+1)-st for every n, in particular every close after the (N+1)-st —
schedules a reconnect.  This theorem evaluates the code at the failing
inputs. -/
theorem c1_reconnect_limit_not_enforced (N n : Nat) :
    (((closeIter (cfgRetries (N : Int)) (n + 1)).2).any Action.isScheduleReconnect) = true ∧
      (∀ t : TAWebsocket, t.config.autoReconnect = false →
        ((onclose t).2).any Action.isScheduleReconnect = false) := by
  constructor
  · obtain ⟨hcfg, hatt⟩ := closeIter_invariant (cfgRetries (N : Int)) n
    have hlt : (-1 : Int) < (N : Int) := by omega
    have hcond : ((closeIter (cfgRetries (N : Int)) n).1).config.autoReconnect = true
        ∧ ((closeIter (cfgRetries (N : Int)) n).1).reconnectAttempts
            < ((closeIter (cfgRetries (N : Int)) n).1).config.autoReconnectMaxRetries := by
      rw [hcfg, hatt]
      exact ⟨rfl, hlt⟩
    show ((onclose (closeIter (cfgRetries (N : Int)) n).1).2.any Action.isScheduleReconnect) = true
    simp [onclose, hcond.1, hcond.2, Action.isScheduleReconnect]
  · intro t h
    simp [onclose, h, Action.isScheduleReconnect]

/-- Witness for **C1** at concrete inputs: with `autoReconnectMaxRetries = 0`
the second close (after N+1 = 1 closes have already occurred) still schedules
a reconnect; and a close under `autoReconnect = false` schedules none. -/
theorem c1_reconnect_limit_not_enforced_witness :
    (((closeIter (cfgRetries ((0 : Nat) : Int)) (1 + 1)).2).any Action.isScheduleReconnect) = true ∧
      (tNoReconnect.config.autoReconnect = false ∧
        ((onclose tNoReconnect).2).any Action.isScheduleReconnect = false) :=
  ⟨(c1_reconnect_limit_not_enforced 0 1).1,
    ⟨rfl, (c1_reconnect_limit_not_enforced 0 1).2 tNoReconnect rfl⟩⟩

/-- **C2, counterexample.** The claim says a caller-initiated `close()` is
terminal: no reconnect timer is ever scheduled as a consequence of the
transport close it triggers, for every configuration.  False: with
`autoReconnect` on and `autoReconnectMaxRetries = 0`, the onclose handler
that runs after `close()` closed the socket schedules a reconnect (nothing
in `close()` suppresses the reconnect policy). -/
theorem c2_counterexample :
    ((closeThenOnclose tOpen0).2).any Action.isScheduleReconnect = true := by
  rfl

/-- **C2, amended.** The transport close triggered by a caller-initiated
`close()` is handled by the ordinary onclose policy, exactly as any other
close: a reconnect timer is scheduled iff `autoReconnect` is enabled and
`reconnectAttempts < autoReconnectMaxRetries`.  (With the default
`autoReconnectMaxRetries = -1` this is false, so no reconnect follows; but
`close()` itself does nothing to make the close terminal.) -/
theorem c2_close_follows_reconnect_policy (t : TAWebsocket)
    (h : t.ws = some ReadyState.OPEN) :
    (((closeThenOnclose t).2).any Action.isScheduleReconnect = true) ↔
      (t.config.autoReconnect = true
        ∧ t.reconnectAttempts < t.config.autoReconnectMaxRetries) := by
  by_cases hc : t.config.autoReconnect = true
      ∧ t.reconnectAttempts < t.config.autoReconnectMaxRetries
  · simp [closeThenOnclose, close, onclose, h, hc, sendEvent, sendPacket,
      Packet.ofEvent, Packet.setFrom, Action.isScheduleReconnect]
  · simp [closeThenOnclose, close, onclose, h, hc, sendEvent, sendPacket,
      Packet.ofEvent, Packet.setFrom, Action.isScheduleReconnect]

/-- Witness for **C2, amended** at a concrete input. -/
theorem c2_close_follows_reconnect_policy_witness :
    tOpen0.ws = some ReadyState.OPEN ∧
      ((((closeThenOnclose tOpen0).2).any Action.isScheduleReconnect = true) ↔
        (tOpen0.config.autoReconnect = true
          ∧ tOpen0.reconnectAttempts < tOpen0.config.autoReconnectMaxRetries)) :=
  ⟨rfl, c2_close_follows_reconnect_policy tOpen0 rfl⟩

/-- **C4, counterexample.** The claim says `close()` emits the user-left
event and closes the transport iff the handshake "connected" flag is true,
and sends nothing when not connected.  False: the guard is the transport's
readyState, not the handshake flag — with the transport OPEN but the
handshake not completed, `close()` still emits the user-left event and
closes the socket. -/
theorem c4_counterexample :
    t4open.taClient.isConnected = false ∧
      close t4open =
        [Action.sendRaw ((Packet.ofEvent
            { user_left_event := some { user := user0 } }).setFrom user0.guid),
          Action.wsClose] :=
  ⟨rfl, rfl⟩

/-- **C4, amended.** `close()` emits a user-left event carrying Self and
then closes the transport if and only if the transport handle exists and its
readyState is OPEN (the handshake "connected" flag is not consulted);
otherwise it sends nothing and closes nothing. -/
theorem c4_close_guarded_by_readyState (t : TAWebsocket) :
    (t.ws = some ReadyState.OPEN →
      close t =
        [Action.sendRaw ((Packet.ofEvent
            { user_left_event := some { user := t.taClient.Self } }).setFrom t.taClient.Self.guid),
          Action.wsClose]) ∧
    (t.ws ≠ some ReadyState.OPEN → close t = []) := by
  constructor
  · intro h
    simp [close, h, sendEvent, sendPacket]
  · intro h
    simp [close, h]

/-- Witness for **C4, amended** at concrete inputs: one client with an OPEN
transport, one with no transport handle. -/
theorem c4_close_guarded_by_readyState_witness :
    (t4open.ws = some ReadyState.OPEN ∧
      close t4open =
        [Action.sendRaw ((Packet.ofEvent
            { user_left_event := some { user := t4open.taClient.Self } }).setFrom
            t4open.taClient.Self.guid),
          Action.wsClose]) ∧
    (tClosed.ws ≠ some ReadyState.OPEN ∧ close tClosed = []) :=
  ⟨⟨rfl, (c4_close_guarded_by_readyState t4open).1 rfl⟩,
    ⟨by decide, (c4_close_guarded_by_readyState tClosed).2 (by decide)⟩⟩

/-- **C5.** On every transport-close event the StateStore is reset —
forcing the connected flag false — strictly before any reconnect timer is
scheduled by that same close handling: the action trace is `storeReset`
first, followed by the (possible) `scheduleReconnect`, and the post-state's
connected flag is false. -/
theorem c5_reset_before_reconnect (t : TAWebsocket) :
    (onclose t).2 =
        Action.storeReset ::
          (if t.config.autoReconnect = true
              ∧ t.reconnectAttempts < t.config.autoReconnectMaxRetries then
            [Action.scheduleReconnect t.config.autoReconnectInterval]
          else []) ∧
      ((onclose t).1).taClient.isConnected = false := by
  by_cases hc : t.config.autoReconnect = true
      ∧ t.reconnectAttempts < t.config.autoReconnectMaxRetries
  · simp [onclose, hc, Client.reset]
  · simp [onclose, hc, Client.reset]

/-- The sender stamp: the stamped packet's sender field is the stamp. -/
lemma Packet.setFrom_from (p : Packet) (g : String) : (p.setFrom g).«from» = g := by
  cases p
  rfl

/-- A trivial external store application (the store's generic handling,
leaving the mirror unchanged), used by concrete witnesses. -/
def applyStore0 : Client → Packet → Client := fun c _ => c

/-- A concrete successful Connect response payload. -/
def connectResp0 : Response.Connect :=
  { self_guid := "g", state := { users := [] } }

/-- A concrete successful Connect response packet. -/
def pConnect : Packet :=
  Packet.mk "pid" "server" none
    (some { type := Response.ResponseType.Success, connect := some connectResp0 })
    none none none

/-- A connected client (handshake completed). -/
def tConnected : TAWebsocket :=
  { config := defaultConfig, ws := some ReadyState.OPEN,
    taClient := { Self := user0, isConnected := true, State := some { users := [] } },
    reconnectAttempts := -1 }

/-- A decoder that fails on every frame (models `deserializeBinary`
throwing on a corrupted buffer). -/
def decodeFail : List Nat → Option Packet := fun _ => none

/-- A caller-built packet with a caller-chosen sender field. -/
def pCaller : Packet := Packet.mk "corr" "attacker" none none none none none

/-- A caller-built inner packet with a caller-chosen sender field, to be
forwarded. -/
def innerCaller : Packet := Packet.mk "i" "caller-set" none none none none none

/-- **C3.** A Connect response with overall status Success, a non-empty
self-id and the client not already connected initializes the StateStore
(transitioning the connected flag from false to true) and only then hands
the same packet to the store's generic `handlePacket`; while already
connected no re-initialization happens; and in every case the last action
is the generic handoff of the packet. -/
theorem c3_handshake_init_then_handoff (applyStore : Client → Packet → Client)
    (t : TAWebsocket) (p : Packet) :
    (∀ resp cr, p.response = some resp → resp.connect = some cr →
      resp.type = Response.ResponseType.Success → t.taClient.isConnected = false →
      cr.self_guid ≠ "" →
        (handlePacket applyStore t p).2 = [Action.storeInit cr, Action.storeHandlePacket p]
        ∧ (t.taClient.init cr).isConnected = true
        ∧ ((handlePacket applyStore t p).1).taClient = applyStore (t.taClient.init cr) p) ∧
    (t.taClient.isConnected = true →
      (handlePacket applyStore t p).2 = [Action.storeHandlePacket p]
      ∧ ((handlePacket applyStore t p).1).taClient = applyStore t.taClient p) ∧
    ((handlePacket applyStore t p).2.getLast? = some (Action.storeHandlePacket p)) := by
  refine ⟨?_, ?_, ?_⟩
  · intro resp cr hresp hconn htype hnc hguid
    simp [handlePacket, hresp, hconn, htype, hnc, hguid, Client.init]
  · intro hconn
    cases hp : p.response with
    | none => simp [handlePacket, hp]
    | some resp =>
      cases hc : resp.connect with
      | none => simp [handlePacket, hp, hc]
      | some cr => simp [handlePacket, hp, hc, hconn]
  · cases hp : p.response with
    | none => simp [handlePacket, hp]
    | some resp =>
      cases hc : resp.connect with
      | none => simp [handlePacket, hp, hc]
      | some cr =>
        by_cases hcond : resp.type = Response.ResponseType.Success
            ∧ t.taClient.isConnected = false ∧ cr.self_guid ≠ ""
        · simp [handlePacket, hp, hc, hcond]
        · simp [handlePacket, hp, hc, hcond]

/-- Witness for **C3** at concrete inputs: a successful handshake packet
processed by a not-yet-connected client, and the same packet processed again
by a connected client. -/
theorem c3_handshake_init_then_handoff_witness :
    (pConnect.response =
        some { type := Response.ResponseType.Success, connect := some connectResp0 }
      ∧ (mkTA defaultConfig).taClient.isConnected = false
      ∧ connectResp0.self_guid ≠ ""
      ∧ (handlePacket applyStore0 (mkTA defaultConfig) pConnect).2
          = [Action.storeInit connectResp0, Action.storeHandlePacket pConnect]) ∧
    (tConnected.taClient.isConnected = true
      ∧ (handlePacket applyStore0 tConnected pConnect).2
          = [Action.storeHandlePacket pConnect]) :=
  ⟨⟨rfl, rfl, by decide,
      ((c3_handshake_init_then_handoff applyStore0 (mkTA defaultConfig) pConnect).1
        _ _ rfl rfl rfl rfl (by decide)).1⟩,
    ⟨rfl,
      ((c3_handshake_init_then_handoff applyStore0 tConnected pConnect).2.1 rfl).1⟩⟩

/-- **C6.** A binary frame on which the Codec's decode fails is logged and
dropped: the client state is unchanged, the only action is the error log, no
close is issued, and (the handler being a total function) nothing propagates
past it; a non-binary message causes no protocol action (at most a warning
log). -/
theorem c6_decode_failure_dropped (decode : List Nat → Option Packet)
    (applyStore : Client → Packet → Client) (t : TAWebsocket) :
    (∀ data, decode data = none →
      onmessage decode applyStore t (WSMessage.binary data)
        = (t, [Action.logError], false)) ∧
    (∀ s, onmessage decode applyStore t (WSMessage.text s)
        = (t, (if t.config.logging = true then [Action.logWarn] else []), false)) := by
  constructor
  · intro data h
    simp [onmessage, h]
  · intro s
    rfl

/-- Witness for **C6** at concrete inputs: a failing decoder on a concrete
frame, and a concrete text message. -/
theorem c6_decode_failure_dropped_witness :
    (decodeFail [0, 1, 2] = none
      ∧ onmessage decodeFail applyStore0 t4open (WSMessage.binary [0, 1, 2])
          = (t4open, [Action.logError], false)) ∧
    onmessage decodeFail applyStore0 t4open (WSMessage.text "hello")
        = (t4open, (if t4open.config.logging = true then [Action.logWarn] else []), false) :=
  ⟨⟨rfl, (c6_decode_failure_dropped decodeFail applyStore0 t4open).1 [0, 1, 2] rfl⟩,
    (c6_decode_failure_dropped decodeFail applyStore0 t4open).2 "hello"⟩

/-- **C7.** `createMatch` returns the new match id and emits exactly one
MatchCreated event whose match has that id, associated users equal (as a
set) to the given players' ids plus Self's id, and leader equal to Self's
id; the id is returned alongside only the outbound event (nothing inbound is
awaited). -/
theorem c7_createMatch_shape (t : TAWebsocket) (uuid : String) (players : List User) :
    (createMatch t uuid players).1 = uuid ∧
    (createMatch t uuid players).2 =
      [Action.sendRaw ((Packet.ofEvent
          { match_created_event := some { «match» :=
              { guid := uuid,
                associated_users := players.map (fun x => x.guid) ++ [t.taClient.Self.guid],
                leader := t.taClient.Self.guid } } }).setFrom t.taClient.Self.guid)] ∧
    (∀ g, g ∈ players.map (fun x => x.guid) ++ [t.taClient.Self.guid] ↔
      (g ∈ players.map (fun x => x.guid) ∨ g = t.taClient.Self.guid)) := by
  refine ⟨rfl, rfl, ?_⟩
  intro g
  simp

/-- **C8.** `loadSong` sets the match's selected level id to
`"custom_level_"` followed by the hash and its selected difficulty to the
given difficulty, forwards exactly one LoadSong command addressed to exactly
the guids of the match's current Player-role participants (as computed by
`getPlayers`, which is unaffected by the level mutation), and schedules
exactly one MatchUpdated event, after the fixed 500 ms delay, carrying the
mutated match. -/
theorem c8_loadSong_shape (t : TAWebsocket) (songName hash : String) (difficulty : Int)
    (taMatch : Match) :
    ((loadSong t songName hash difficulty taMatch).1).selected_level =
      some { level_id := "custom_level_" ++ hash, name := songName,
             characteristics := [{ serialized_name := "Standard",
                                   difficulties := [difficulty] }],
             loaded := true } ∧
    ((loadSong t songName hash difficulty taMatch).1).selected_difficulty = difficulty ∧
    getPlayers t (loadSong t songName hash difficulty taMatch).1 = getPlayers t taMatch ∧
    (loadSong t songName hash difficulty taMatch).2.1 =
      [Action.sendRaw ((Packet.ofForwarding (ForwardingPacket.mk
          ((getPlayers t taMatch).map (fun x => x.guid))
          (Packet.ofCommand
            { load_song := some { level_id := "custom_level_" ++ hash } }))).setFrom
        t.taClient.Self.guid)] ∧
    (loadSong t songName hash difficulty taMatch).2.2 =
      [(500, Action.sendRaw ((Packet.ofEvent
          { match_updated_event := some
              { «match» := (loadSong t songName hash difficulty taMatch).1 } }).setFrom
        t.taClient.Self.guid))] := by
  exact ⟨rfl, rfl, rfl, rfl, rfl⟩

/-- **C9.** Every packet handed to the send path is transmitted with its
sender field equal to Self's id, whatever the caller set before sending, and
the stamping happens on the very packet transmitted — for plain sends,
events, forwards and the Connect request alike. -/
theorem c9_sender_always_self (t : TAWebsocket) :
    (∀ p q, Action.sendRaw q ∈ sendPacket t p → q.«from» = t.taClient.Self.guid) ∧
    (∀ e q, Action.sendRaw q ∈ sendEvent t e → q.«from» = t.taClient.Self.guid) ∧
    (∀ ids p q, Action.sendRaw q ∈ forwardPacket t ids p → q.«from» = t.taClient.Self.guid) ∧
    (∀ uuid pw q, Action.sendRaw q ∈ ClientConnect t uuid pw →
      q.«from» = t.taClient.Self.guid) ∧
    (∀ p, sendPacket t p = [Action.sendRaw (p.setFrom t.taClient.Self.guid)]) := by
  have key : ∀ p q, Action.sendRaw q ∈ sendPacket t p → q.«from» = t.taClient.Self.guid := by
    intro p q h
    simp only [sendPacket, List.mem_singleton] at h
    injection h with h1
    rw [h1]
    exact Packet.setFrom_from p t.taClient.Self.guid
  refine ⟨key, ?_, ?_, ?_, fun _ => rfl⟩
  · intro e q h
    exact key (Packet.ofEvent e) q h
  · intro ids p q h
    exact key (Packet.ofForwarding (ForwardingPacket.mk ids p)) q h
  · intro uuid pw q h
    exact key (Packet.ofRequest uuid t.taClient.Self.guid
      { connect := some { user := t.taClient.Self, client_version := 66, password := pw } }) q h

/-- Witness for **C9** at a concrete input: a caller-built packet whose
sender field was set to `"attacker"` is transmitted with Self's id
instead. -/
theorem c9_sender_always_self_witness :
    (Action.sendRaw (pCaller.setFrom t4open.taClient.Self.guid) ∈ sendPacket t4open pCaller) ∧
      pCaller.«from» = "attacker" ∧
      (pCaller.setFrom t4open.taClient.Self.guid).«from» = t4open.taClient.Self.guid :=
  ⟨List.mem_singleton.mpr rfl, rfl,
    (c9_sender_always_self t4open).1 pCaller _ (List.mem_singleton.mpr rfl)⟩

/-- **C10.** `forwardPacket` stamps only the outer `ForwardingPacket`
envelope with Self's id; the inner packet is carried verbatim — keeping
whatever sender field the caller set — and the `forward_to` list is the
given ids unchanged. -/
theorem c10_forward_preserves_inner_sender (t : TAWebsocket) (ids : List String)
    (inner : Packet) :
    ∀ q, Action.sendRaw q ∈ forwardPacket t ids inner →
      q.«from» = t.taClient.Self.guid ∧
      q.forwarding_packet = some (ForwardingPacket.mk ids inner) ∧
      (∀ fp, q.forwarding_packet = some fp →
        fp.forward_to = ids ∧ fp.packet = inner ∧ (fp.packet).«from» = inner.«from») := by
  intro q h
  simp only [forwardPacket, sendPacket, List.mem_singleton] at h
  injection h with h1
  subst h1
  refine ⟨rfl, rfl, ?_⟩
  intro fp hfp
  have h2 : ForwardingPacket.mk ids inner = fp := by
    injection hfp
  subst h2
  exact ⟨rfl, rfl, rfl⟩

/-- Witness for **C10** at a concrete input: forwarding a caller-built inner
packet whose sender field is `"caller-set"` keeps that inner sender and the
recipient list, while the outer envelope is stamped with Self's id. -/
theorem c10_forward_preserves_inner_sender_witness :
    (Action.sendRaw ((Packet.ofForwarding
        (ForwardingPacket.mk ["r1", "r2"] innerCaller)).setFrom t4open.taClient.Self.guid)
      ∈ forwardPacket t4open ["r1", "r2"] innerCaller) ∧
    innerCaller.«from» = "caller-set" ∧
    (((Packet.ofForwarding (ForwardingPacket.mk ["r1", "r2"] innerCaller)).setFrom
        t4open.taClient.Self.guid).«from» = t4open.taClient.Self.guid ∧
      ((Packet.ofForwarding (ForwardingPacket.mk ["r1", "r2"] innerCaller)).setFrom
        t4open.taClient.Self.guid).forwarding_packet =
          some (ForwardingPacket.mk ["r1", "r2"] innerCaller)) :=
  ⟨List.mem_singleton.mpr rfl, rfl,
    ⟨(c10_forward_preserves_inner_sender t4open ["r1", "r2"] innerCaller _
        (List.mem_singleton.mpr rfl)).1,
      (c10_forward_preserves_inner_sender t4open ["r1", "r2"] innerCaller _
        (List.mem_singleton.mpr rfl)).2.1⟩⟩

end TA
